import Mathlib

/-!
Shallow embedding of the US-Job-Market repository's two source files:

* `src/extractors/bls_extractor.py`  — class `BLSExtractor`
* `src/transformers/data_cleaner.py` — class `DataCleaner`

Conventions of the embedding:

* A pandas `DataFrame` holding parsed employment rows is modelled as a
  `List NormalizedRecord` (row order = positional order of the frame).
* A Python function that can raise is modelled as returning
  `Except PyErr _`; the constructors of `PyErr` name the Python
  exception class that is raised.
* Python `float` values coming from the BLS feed are exact decimals, so
  they are modelled as `ℚ`; `round(x, 2)` is modelled as round-half-to-even
  at two decimal places (`pyRound2`), Python's rounding mode.
* Python dicts that are iterated in insertion order are modelled as
  association lists.
-/

set_option maxRecDepth 8192

instance {ε α : Type} [DecidableEq ε] [DecidableEq α] : DecidableEq (Except ε α) := fun a b =>
  match a, b with
  | .error e₁, .error e₂ =>
    if h : e₁ = e₂ then .isTrue (by rw [h]) else .isFalse (fun hc => h (by injection hc))
  | .ok a₁, .ok a₂ =>
    if h : a₁ = a₂ then .isTrue (by rw [h]) else .isFalse (fun hc => h (by injection hc))
  | .error _, .ok _ => .isFalse (fun hc => Except.noConfusion hc)
  | .ok _, .error _ => .isFalse (fun hc => Except.noConfusion hc)

/-- The Python exception classes that the embedded code can raise. -/
inductive PyErr where
  /-- `TypeError`, e.g. subscripting a bound method object. -/
  | typeErr
  /-- `ValueError`, e.g. `int()` of a non-numeric string, a `datetime`
      month outside 1..12, or `pd.concat` of an empty list. -/
  | valueErr
  /-- `AttributeError`, e.g. a method name that does not exist. -/
  | attrErr
  /-- `UnboundLocalError`: a local variable read before assignment. -/
  | unboundLocalErr
deriving DecidableEq, Repr

/-- A calendar date as produced by Python's `datetime(year, month, day)`. -/
structure Date where
  year : Int
  month : Int
  day : Int
deriving DecidableEq, Repr

/-- Models the call `datetime(year, month, 1)` (the only `datetime`
construction in the source, line 50 of `data_cleaner.py`): it raises
`ValueError` unless `MINYEAR ≤ year ≤ MAXYEAR` and `1 ≤ month ≤ 12`. -/
def datetimeFirst (y m : Int) : Except PyErr Date :=
  if 1 ≤ y ∧ y ≤ 9999 ∧ 1 ≤ m ∧ m ≤ 12 then .ok ⟨y, m, 1⟩ else .error .valueErr

/-- Models `date.strftime('%B')` for a date whose month field is `m`. -/
def monthName (m : Int) : String :=
  if m = 1 then "January" else if m = 2 then "February"
  else if m = 3 then "March" else if m = 4 then "April"
  else if m = 5 then "May" else if m = 6 then "June"
  else if m = 7 then "July" else if m = 8 then "August"
  else if m = 9 then "September" else if m = 10 then "October"
  else if m = 11 then "November" else if m = 12 then "December" else ""

/-- Models Python `s.startswith('M')` (kernel-reducible: works on the
character list of the string). -/
def startsWithM (s : String) : Bool :=
  match s.data with
  | c :: _ => c = 'M'
  | [] => false

/-- Models the Python slice `s[1:]`, as a character list. -/
def strTail (s : String) : List Char := s.data.drop 1

/-- Models Python `s.replace('_', ' ')` for the one-character pattern
used at line 53 of `data_cleaner.py`. -/
def replaceUnderscores (s : String) : String :=
  ⟨s.data.map fun c => if c = '_' then ' ' else c⟩

/-- Helper for `pyInt?`: parse a nonempty all-digit character list. -/
def pyDigits? (cs : List Char) : Option Nat :=
  if cs ≠ [] ∧ cs.all (·.isDigit) then
    some (cs.foldl (fun n c => n * 10 + (c.toNat - Char.toNat '0')) 0)
  else none

/-- Models Python `int(s)` on the strings reached from period codes:
`none` means `int` raises `ValueError`. (Like Python, it accepts leading
zeros, as in `int("01") = 1`, and an optional sign.) -/
def pyInt? (cs : List Char) : Option Int :=
  match cs with
  | '-' :: rest => (pyDigits? rest).map fun n => -(n : Int)
  | '+' :: rest => (pyDigits? rest).map fun n => (n : Int)
  | _ => (pyDigits? cs).map fun n => (n : Int)

/-- Floor of a rational, as kernel-reducible arithmetic on its numerator
and denominator. -/
def ratFloor (q : ℚ) : Int := q.num.fdiv q.den

/-- Round a rational to the nearest integer, ties to even — Python's
`round` on exact decimal values. -/
def roundHalfToEven (q : ℚ) : Int :=
  let f := ratFloor q
  if q - f < 1/2 then f
  else if 1/2 < q - f then f + 1
  else if f % 2 = 0 then f else f + 1

/-- Models Python `round(x, 2)` on exact decimals. -/
def pyRound2 (q : ℚ) : ℚ := (roundHalfToEven (q * 100) : ℚ) / 100

/-- One element of a BLS series, `{year, period, value}` (spec §3
`RawPoint`); `year` and `value` are stored already converted, as the
source's `int(...)`/`float(...)` conversions (lines 39–41) always
succeed on feed data. -/
structure RawPoint where
  year : Int
  period : String
  value : ℚ
deriving DecidableEq, Repr

/-- One row of the parsed employment frame (spec §3 `NormalizedRecord`);
the record literals built at lines 52–61 of `data_cleaner.py`. -/
structure NormalizedRecord where
  sector : String
  date : Date
  year : Int
  month : Int
  month_name : String
  employment_thousands : ℚ
  employment_millions : ℚ
  period_code : String
deriving DecidableEq, Repr

/-- The body of the `for data_point in raw_data` loop of
`parse_bls_data` (lines 37–63): `.ok none` models the `continue` branch
(period not starting with `'M'`, or equal to `'M13'`), `.ok (some r)`
models appending a record, `.error _` models an uncaught exception from
`int(period[1:])` or `datetime(year, month, 1)`. -/
def parsePoint (sector_name : String) (p : RawPoint) :
    Except PyErr (Option NormalizedRecord) :=
  if startsWithM p.period ∧ p.period ≠ "M13" then
    match pyInt? (strTail p.period) with
    | none => .error .valueErr
    | some month =>
      match datetimeFirst p.year month with
      | .error e => .error e
      | .ok date =>
        .ok (some
          { sector := replaceUnderscores sector_name
            date := date
            year := p.year
            month := month
            month_name := monthName month
            employment_thousands := p.value
            employment_millions := pyRound2 (p.value / 1000)
            period_code := p.period })
  else
    .ok none

/-- The loop of `parse_bls_data`, accumulating the `records` list. -/
def parseLoop (sector_name : String) :
    List RawPoint → List NormalizedRecord → Except PyErr (List NormalizedRecord)
  | [], records => .ok records
  | p :: rest, records =>
    match parsePoint sector_name p with
    | .error e => .error e
    | .ok none => parseLoop sector_name rest records
    | .ok (some r) => parseLoop sector_name rest (records ++ [r])

/-- `DataCleaner.parse_bls_data` (lines 28–71 of `data_cleaner.py`):
converts one sector's raw points to a frame of records; an empty list
models the empty `pd.DataFrame()` returned when no point is valid. -/
def parse_bls_data (raw_data : List RawPoint) (sector_name : String) :
    Except PyErr (List NormalizedRecord) :=
  parseLoop sector_name raw_data []

/-- The twelve valid month codes, indexed by month number: the code
whose numeric suffix is `m`. -/
def monthCode (m : Int) : String :=
  if m = 1 then "M01" else if m = 2 then "M02" else if m = 3 then "M03"
  else if m = 4 then "M04" else if m = 5 then "M05" else if m = 6 then "M06"
  else if m = 7 then "M07" else if m = 8 then "M08" else if m = 9 then "M09"
  else if m = 10 then "M10" else if m = 11 then "M11" else if m = 12 then "M12"
  else ""

/-- A raw point that the parser's `continue` branch drops: its period
code does not start with `'M'`, or is exactly `"M13"`. -/
def isSkippable (p : RawPoint) : Bool :=
  !startsWithM p.period || p.period == "M13"

/-- A raw point that the parser turns into a record without raising:
an `'M'`-prefixed code other than `"M13"` whose suffix `int`-parses to a
calendar month 1..12, with the year in `datetime`'s supported range. -/
def isValidMonthPoint (p : RawPoint) : Bool :=
  startsWithM p.period && p.period != "M13" &&
    (match pyInt? (strTail p.period) with
     | some m => decide (1 ≤ m ∧ m ≤ 12 ∧ 1 ≤ p.year ∧ p.year ≤ 9999)
     | none => false)

/-- `DataCleaner.calcualte_metrics` (lines 73–141 of `data_cleaner.py`,
function name as misspelled in the source). For an empty frame it
returns the frame unchanged (line 76–77). For a non-empty frame the
source sorts, then iterates over `df['sector'].unique()` — non-empty, so
the loop body runs at least once — and its first statement binds
`sector_data = df[mask].copy` (line 87), the **unapplied** bound method
`copy` (no parentheses); the next statement (line 92) evaluates
`sector_data['employment_thousands']`, subscripting that method object,
which raises `TypeError`, so the function never reaches the metric
assignments, the `growth_status` bucketing, or the `isnin` call at line
128 (itself a nonexistent method that would raise `AttributeError`). -/
def calcualte_metrics (df : List NormalizedRecord) : Except PyErr (List NormalizedRecord) :=
  if df.isEmpty then .ok df
  else .error .typeErr

/-- Lines 162–166 of `process_all_sectors`: `pd.concat(all_dfs,
ignore_index=True)` — which raises `ValueError` on an empty list of
frames — followed by `calcualte_metrics` on the combined frame. -/
def combineAndEnrich (all_dfs : List (List NormalizedRecord)) :
    Except PyErr (List NormalizedRecord) :=
  if all_dfs.isEmpty then .error .valueErr
  else calcualte_metrics all_dfs.flatten

/-- The `for sector_name, raw_data in all_raw_data.items()` loop of
`process_all_sectors` (lines 153–156): accumulates the non-empty parsed
frames in `all_dfs` and tracks the value of the loop-local variable `df`
(`none` while still unassigned, i.e. if the loop body never ran). -/
def sectorLoop :
    List (String × List RawPoint) → List (List NormalizedRecord) →
      Option (List NormalizedRecord) →
      Except PyErr (List (List NormalizedRecord) × Option (List NormalizedRecord))
  | [], all_dfs, last? => .ok (all_dfs, last?)
  | kv :: rest, all_dfs, _ =>
    match parse_bls_data kv.2 kv.1 with
    | .error e => .error e
    | .ok df =>
      sectorLoop rest (if df.isEmpty then all_dfs else all_dfs ++ [df]) (some df)

/-- `DataCleaner.process_all_sectors` (lines 143–174 of
`data_cleaner.py`). After the per-sector loop, line 158 tests
`if not df.empty:` — reading the loop variable `df` (the **last**
sector's parse result), not the accumulated `all_dfs`; on an empty input
mapping `df` was never assigned, so the read raises `UnboundLocalError`.
When the test fires (last frame non-empty) the function prints
" No data to process" and returns an empty `pd.DataFrame()`; otherwise
it falls through to concatenation and metric calculation. -/
def process_all_sectors (all_raw_data : List (String × List RawPoint)) :
    Except PyErr (List NormalizedRecord) :=
  match sectorLoop all_raw_data [] none with
  | .error e => .error e
  | .ok (all_dfs, last?) =>
    match last? with
    | none => .error .unboundLocalErr
    | some df =>
      if !df.isEmpty then .ok []
      else combineAndEnrich all_dfs

/-- The issues list of `validate_data` as collected by lines 211–226 of
`data_cleaner.py`, i.e. the checks that execute before the
date-continuity loop. The missing-value check (lines 214–216) never
fires here because every field of a `NormalizedRecord` is total (the
frames reaching the validator come from `parse_bls_data`, which puts no
nulls in any column); the duplicate count (line 219) is computed by the
source but never appended. -/
def validationIssuesPreContinuity (df : List NormalizedRecord) : List String :=
  let issues : List String := []
  let issues := if df.any (fun r => r.employment_thousands < 0)
    then issues ++ ["Negative employment values found"] else issues
  let issues := if df.any (fun r => r.employment_thousands > 1000000)
    then issues ++ ["Unrealistically high employment rate"] else issues
  issues

/-- `DataCleaner.validate_data` (lines 206–245 of `data_cleaner.py`),
with the input frame threaded through explicitly so that its final
state is part of the result: every statement of the source only reads
`df` (`isnull`, `duplicated`, element-wise comparisons, boolean-mask
selection, `sort_values` and `diff` — all of which build new objects),
so the frame component is the unchanged input in every branch.
The date-continuity loop (lines 229–235) iterates over
`df['sector'].unique()`; whenever the frame is non-empty that set is
non-empty, and the first iteration evaluates `date_diffs.days` (line
234) — a pandas `Series` has no attribute `days` (only the `.dt.days`
accessor exists) — raising `AttributeError` before the function can
return. On an empty frame the loop body never runs and line 245 returns
the bare boolean `len(issues) == 0` (not an `(is_valid, issues)` pair). -/
def validate_data (df : List NormalizedRecord) :
    Except PyErr Bool × List NormalizedRecord :=
  let issues := validationIssuesPreContinuity df
  if df.isEmpty then (.ok (issues.length == 0), df)
  else (.error .attrErr, df)

/-- The body of an HTTP response, as far as `fetch_employment_data`
inspects it: the JSON `status` field and the `Results.series` payload
(a list of `seriesID` / `data` pairs). -/
structure APIBody where
  status : String
  series : List (String × List RawPoint)
deriving DecidableEq, Repr

/-- The outcome of the `requests.post` call at lines 61–65 of
`bls_extractor.py`: either a response object (with its HTTP status
code and parsed JSON body) or a raised exception (network failure,
timeout, ...), which the source catches at line 91. -/
inductive HTTPOutcome where
  | response (status_code : Int) (body : APIBody)
  | exc
deriving DecidableEq, Repr

/-- The mutable state of a `BLSExtractor` session (constructor, lines
8–17 of `bls_extractor.py`): `request_count` starts at 0 and
`max_requests` at the daily limit 25. -/
structure BLSExtractor where
  request_count : Int
  max_requests : Int
deriving DecidableEq, Repr

/-- `BLSExtractor.__init__`. -/
def BLSExtractor.init : BLSExtractor := ⟨0, 25⟩

/-- `BLSExtractor.fetch_employment_data` (lines 19–93 of
`bls_extractor.py`), with the network modelled as an oracle
`HTTPOutcome` for the single `requests.post` call the function makes.
Returns the Python return value (`None` or the `all_series` dict)
together with the post-state of the session:

* lines 33–35: if `request_count >= max_requests`, return `None`
  without issuing a request and without touching the counter;
* lines 38–41 adjust `end_year` to a 10-year span — this affects only
  the request payload, which the oracle already accounts for, not the
  returned value or the session state;
* line 68: the counter is incremented **after** `requests.post`
  returns, so a call whose request raises skips the increment — the
  `except` arm (lines 91–93) prints and falls off the function,
  returning `None`;
* lines 71–89: a 200 response with `status == 'REQUEST_SUCCEEDED'`
  yields the series dict; any other status or HTTP code yields `None`
  (after the increment).

The last component of the result records whether the call reached
`requests.post` at all, i.e. whether an HTTP request was issued. -/
def fetch_employment_data (s : BLSExtractor) (net : HTTPOutcome) :
    Option (List (String × List RawPoint)) × BLSExtractor × Bool :=
  if s.request_count ≥ s.max_requests then (none, s, false)
  else
    match net with
    | .exc => (none, s, true)
    | .response status_code body =>
      let s' : BLSExtractor := { s with request_count := s.request_count + 1 }
      if status_code = 200 then
        if body.status = "REQUEST_SUCCEEDED" then (some body.series, s', true)
        else (none, s', true)
      else (none, s', true)

/-- A sequence of calls on one extractor session: fold
`fetch_employment_data` over the network outcome of each call,
keeping only the session state. -/
def runFetches (s : BLSExtractor) (nets : List HTTPOutcome) : BLSExtractor :=
  nets.foldl (fun st net => (fetch_employment_data st net).2.1) s

/-! ### Lemmas about the parser -/

/-- On a point whose period code is `'M'`-prefixed, distinct from
`"M13"`, with an in-range month suffix and year, the loop body yields
one record. -/
theorem parsePoint_valid (name : String) (p : RawPoint) (m : Int)
    (h1 : startsWithM p.period = true) (h2 : p.period ≠ "M13")
    (h3 : pyInt? (strTail p.period) = some m)
    (h4 : 1 ≤ p.year) (h5 : p.year ≤ 9999) (h6 : 1 ≤ m) (h7 : m ≤ 12) :
    parsePoint name p = .ok (some
      { sector := replaceUnderscores name, date := ⟨p.year, m, 1⟩, year := p.year,
        month := m, month_name := monthName m, employment_thousands := p.value,
        employment_millions := pyRound2 (p.value / 1000), period_code := p.period }) := by
  have hd : datetimeFirst p.year m = .ok ⟨p.year, m, 1⟩ := by
    unfold datetimeFirst
    rw [if_pos ⟨h4, h5, h6, h7⟩]
  unfold parsePoint
  rw [if_pos ⟨h1, h2⟩, h3]
  simp [hd]

/-- On a point whose period code does not start with `'M'` or is
`"M13"`, the loop body is the `continue` branch. -/
theorem parsePoint_skip (name : String) (p : RawPoint)
    (h : startsWithM p.period = false ∨ p.period = "M13") :
    parsePoint name p = .ok none := by
  unfold parsePoint
  rcases h with h | h
  · rw [if_neg]
    rintro ⟨h1, -⟩
    rw [h] at h1
    exact Bool.false_ne_true h1
  · rw [if_neg]
    rintro ⟨-, h2⟩
    exact h2 h

/-- Parsing a one-point list with a valid month code. -/
theorem parse_single_valid (y : Int) (v : ℚ) (name p : String) (m : Int)
    (h1 : startsWithM p = true) (h2 : p ≠ "M13") (h3 : pyInt? (strTail p) = some m)
    (h4 : 1 ≤ y) (h5 : y ≤ 9999) (h6 : 1 ≤ m) (h7 : m ≤ 12) :
    parse_bls_data [⟨y, p, v⟩] name = .ok
      [{ sector := replaceUnderscores name, date := ⟨y, m, 1⟩, year := y,
         month := m, month_name := monthName m, employment_thousands := v,
         employment_millions := pyRound2 (v / 1000), period_code := p }] := by
  unfold parse_bls_data parseLoop
  rw [parsePoint_valid name ⟨y, p, v⟩ m h1 h2 h3 h4 h5 h6 h7]
  simp [parseLoop]

/-- Parsing a one-point list with a skippable code yields no record. -/
theorem parse_single_skip (y : Int) (v : ℚ) (name p : String)
    (h : startsWithM p = false ∨ p = "M13") :
    parse_bls_data [⟨y, p, v⟩] name = .ok [] := by
  unfold parse_bls_data parseLoop
  rw [parsePoint_skip name ⟨y, p, v⟩ h]
  simp [parseLoop]

/-- Unpacking `isSkippable`. -/
theorem skippable_cases {p : RawPoint} (h : isSkippable p = true) :
    startsWithM p.period = false ∨ p.period = "M13" := by
  simpa [isSkippable, Bool.or_eq_true, Bool.not_eq_true', beq_iff_eq] using h

/-- A skippable point is not a valid month point. -/
theorem valid_false_of_skippable {p : RawPoint} (h : isSkippable p = true) :
    isValidMonthPoint p = false := by
  rcases skippable_cases h with h' | h'
  · simp [isValidMonthPoint, h']
  · simp [isValidMonthPoint, h']

/-- A valid month point makes the loop body produce a record. -/
theorem parsePoint_valid_of_bool (name : String) (p : RawPoint)
    (hv : isValidMonthPoint p = true) :
    ∃ r, parsePoint name p = .ok (some r) := by
  simp only [isValidMonthPoint, Bool.and_eq_true, bne_iff_ne] at hv
  obtain ⟨⟨h1, h2⟩, h3⟩ := hv
  cases hm : pyInt? (strTail p.period) with
  | none => rw [hm] at h3; simp at h3
  | some m =>
    rw [hm] at h3
    simp only [decide_eq_true_eq] at h3
    obtain ⟨hm1, hm2, hy1, hy2⟩ := h3
    exact ⟨_, parsePoint_valid name p m h1 h2 hm hy1 hy2 hm1 hm2⟩

/-- The parse loop ignores skippable points: on a list mixing skippable
and valid points it runs without error and returns exactly what it
returns on the valid points alone. -/
theorem parseLoop_skip_filter (name : String) :
    ∀ (pts : List RawPoint) (acc : List NormalizedRecord),
      (∀ p ∈ pts, isSkippable p = true ∨ isValidMonthPoint p = true) →
      ∃ recs, parseLoop name pts acc = .ok recs ∧
        parseLoop name (pts.filter isValidMonthPoint) acc = .ok recs := by
  intro pts
  induction pts with
  | nil => exact fun acc _ => ⟨acc, rfl, rfl⟩
  | cons p rest ih =>
    intro acc h
    rcases h p (List.mem_cons_self p rest) with hs | hv
    · have hpp : parsePoint name p = .ok none := parsePoint_skip name p (skippable_cases hs)
      have hf : isValidMonthPoint p = false := valid_false_of_skippable hs
      obtain ⟨recs, h1, h2⟩ := ih acc (fun q hq => h q (List.mem_cons_of_mem p hq))
      refine ⟨recs, ?_, ?_⟩
      · simpa [parseLoop, hpp] using h1
      · simpa [List.filter_cons, hf] using h2
    · obtain ⟨r, hpp⟩ := parsePoint_valid_of_bool name p hv
      obtain ⟨recs, h1, h2⟩ := ih (acc ++ [r]) (fun q hq => h q (List.mem_cons_of_mem p hq))
      refine ⟨recs, ?_, ?_⟩
      · simpa [parseLoop, hpp] using h1
      · simpa [List.filter_cons, hv, parseLoop, hpp] using h2

/-- Claim C6: a raw point whose period code is one of `M01`..`M12`
yields exactly one record whose `month` is the code's numeric suffix,
whose `date` is the first of that month, and whose
`employment_millions` is `round(employment_thousands/1000, 2)`; a point
with code `M13`, or any code not prefixed by `M`, yields zero
records. (The year hypotheses keep `datetime` in its supported range;
every BLS year satisfies them.) -/
theorem c6_parser_month_codes (y : Int) (v : ℚ) (name : String)
    (hy1 : 1 ≤ y) (hy2 : y ≤ 9999) :
    (∀ m : Int, 1 ≤ m → m ≤ 12 →
      parse_bls_data [⟨y, monthCode m, v⟩] name = .ok
        [{ sector := replaceUnderscores name, date := ⟨y, m, 1⟩, year := y,
           month := m, month_name := monthName m, employment_thousands := v,
           employment_millions := pyRound2 (v / 1000), period_code := monthCode m }]) ∧
    parse_bls_data [⟨y, "M13", v⟩] name = .ok [] ∧
    (∀ p : String, startsWithM p = false → parse_bls_data [⟨y, p, v⟩] name = .ok []) := by
  refine ⟨?_, parse_single_skip y v name _ (Or.inr rfl),
    fun p hp => parse_single_skip y v name p (Or.inl hp)⟩
  intro m hm1 hm2
  interval_cases m <;>
    exact parse_single_valid y v name _ _ (by with_unfolding_all decide)
      (by with_unfolding_all decide) (by with_unfolding_all decide)
      hy1 hy2 (by decide) (by decide)

/-- Witness for C6 at a concrete input. -/
theorem c6_parser_month_codes_witness :
    parse_bls_data [⟨2023, monthCode 3, 1500⟩] "Education_Health" = .ok
      [{ sector := replaceUnderscores "Education_Health", date := ⟨2023, 3, 1⟩, year := 2023,
         month := 3, month_name := monthName 3, employment_thousands := 1500,
         employment_millions := pyRound2 (1500 / 1000), period_code := monthCode 3 }] :=
  (c6_parser_month_codes 2023 1500 "Education_Health" (by decide) (by decide)).1
    3 (by decide) (by decide)

/-- Claim C7 counterexample: a point with the `M`-prefixed, non-month
code `"M14"` is not skipped — parsing the sector raises `ValueError`
(so the valid `"M01"` point that follows is lost too); same for
`"MXX"`. -/
theorem c7_counterexample :
    parse_bls_data [⟨2023, "M14", 1⟩, ⟨2023, "M01", 1⟩] "Mining_Logging" = .error .valueErr ∧
    parse_bls_data [⟨2023, "MXX", 1⟩] "Mining_Logging" = .error .valueErr := by
  with_unfolding_all decide

/-- Claim C7 (amended): points whose period code does not start with
`M`, or equals `M13`, are skipped without raising, and the remaining
valid month points of the sector are still parsed (the parser returns
exactly what it returns on the valid points alone); but this holds only
when every non-valid point is of that skippable kind — an `M`-prefixed
code other than `M13` that is not a calendar month (such as `"M14"` or
`"MXX"`) instead raises an error that aborts the whole sector. -/
theorem c7_skippable_points (pts : List RawPoint) (name : String)
    (h : ∀ p ∈ pts, isSkippable p = true ∨ isValidMonthPoint p = true) :
    ∃ recs, parse_bls_data pts name = .ok recs ∧
      parse_bls_data (pts.filter isValidMonthPoint) name = .ok recs := by
  unfold parse_bls_data
  exact parseLoop_skip_filter name pts [] h

/-- Witness for the amended C7 at a concrete input. -/
theorem c7_skippable_points_witness :
    ∃ recs,
      parse_bls_data [⟨2023, "M13", 1200⟩, ⟨2023, "M01", 1000⟩] "Government" = .ok recs ∧
      parse_bls_data
        ([⟨2023, "M13", 1200⟩, ⟨2023, "M01", 1000⟩].filter isValidMonthPoint)
        "Government" = .ok recs :=
  c7_skippable_points [⟨2023, "M13", 1200⟩, ⟨2023, "M01", 1000⟩] "Government"
    (by with_unfolding_all decide)

/-- Claim C2: on every non-empty record frame `calcualte_metrics`
raises (`TypeError`, from subscripting the unapplied bound method
`df[mask].copy`) and never returns normally, so no enriched frame is
ever produced for non-empty input. -/
theorem c2_metrics_always_raise (df : List NormalizedRecord) (h : df ≠ []) :
    calcualte_metrics df = .error .typeErr := by
  unfold calcualte_metrics
  rw [if_neg]
  simpa [List.isEmpty_iff] using h

/-- Witness for C2 at a concrete one-row frame. -/
theorem c2_metrics_always_raise_witness :
    calcualte_metrics
      [⟨"Construction", ⟨2024, 5, 1⟩, 2024, 5, "May", 7800, 7.8, "M05"⟩] =
      .error .typeErr :=
  c2_metrics_always_raise _ (by simp)

/-- Claim C1 (code evaluated at the failing inputs): on the empty
mapping the Assembler raises `UnboundLocalError` (reading the loop
variable `df` that was never assigned — no `EmptyDatasetError` exists
anywhere in the source), and on a mapping whose single sector parses to
one valid record it does not combine and enrich: it prints " No data to
process" and returns an empty frame. -/
theorem c1_assembler_failing_inputs :
    process_all_sectors [] = .error .unboundLocalErr ∧
    process_all_sectors [("Manufacturing", [⟨2023, "M01", 1000⟩])] = .ok [] := by
  constructor
  · rfl
  · with_unfolding_all decide

/-- The sector loop distributes over list append. -/
theorem sectorLoop_append (xs ys : List (String × List RawPoint))
    (acc : List (List NormalizedRecord)) (last? : Option (List NormalizedRecord)) :
    sectorLoop (xs ++ ys) acc last? =
      match sectorLoop xs acc last? with
      | .error e => .error e
      | .ok (acc', l') => sectorLoop ys acc' l' := by
  induction xs generalizing acc last? with
  | nil => simp [sectorLoop]
  | cons kv rest ih =>
    simp only [List.cons_append, sectorLoop]
    cases parse_bls_data kv.2 kv.1 with
    | error e => rfl
    | ok df => exact ih _ _

/-- Claim C4: when the sectors before the last one are processed
without an exception, the Assembler's behaviour is decided by the
**last** sector's parse alone — if the last sector parsed to at least
one record, it prints " No data to process" and returns an empty frame
(no concatenation, no metrics); it reaches concatenation and metric
calculation exactly when the last sector parsed to zero records. -/
theorem c4_last_sector_decides (init : List (String × List RawPoint))
    (st : List (List NormalizedRecord) × Option (List NormalizedRecord))
    (name : String) (pts : List RawPoint) (recs : List NormalizedRecord)
    (h1 : sectorLoop init [] none = .ok st)
    (h2 : parse_bls_data pts name = .ok recs) :
    (recs ≠ [] → process_all_sectors (init ++ [(name, pts)]) = .ok []) ∧
    (recs = [] → process_all_sectors (init ++ [(name, pts)]) = combineAndEnrich st.1) := by
  unfold process_all_sectors
  rw [sectorLoop_append, h1]
  obtain ⟨acc, last?⟩ := st
  simp only [sectorLoop, h2]
  constructor
  · intro hne
    have he : recs.isEmpty = false := by simpa [List.isEmpty_iff] using hne
    simp [sectorLoop, he]
  · intro hemp
    subst hemp
    simp [sectorLoop]

/-- Witness for C4 at a concrete input whose last sector has data. -/
theorem c4_last_sector_decides_witness :
    process_all_sectors [("Information", [⟨2022, "M08", 3000⟩])] = .ok [] :=
  (c4_last_sector_decides [] ([], none)
    "Information" [⟨2022, "M08", 3000⟩] _
    rfl
    (parse_single_valid 2022 3000 "Information" "M08" 8
      (by with_unfolding_all decide) (by with_unfolding_all decide)
      (by with_unfolding_all decide) (by decide) (by decide) (by decide) (by decide))).1
    (by simp)

/-- Claim C3 (code evaluated at the failing input): on a sector with 12
chronologically consecutive rows — enough history for a full 12-month
window — `calcualte_metrics` raises `TypeError` before assigning any
moving average; no output carrying `ma_3month`/`ma_12month` exists. -/
theorem c3_moving_average_failing_input :
    ((List.range 12).map (fun i : Nat =>
        ({ sector := "Total Nonfarm", date := ⟨2023, (i : Int) + 1, 1⟩, year := 2023,
           month := (i : Int) + 1, month_name := monthName ((i : Int) + 1),
           employment_thousands := 150000, employment_millions := 150,
           period_code := monthCode ((i : Int) + 1) } : NormalizedRecord))).length = 12 ∧
    calcualte_metrics ((List.range 12).map (fun i : Nat =>
        ({ sector := "Total Nonfarm", date := ⟨2023, (i : Int) + 1, 1⟩, year := 2023,
           month := (i : Int) + 1, month_name := monthName ((i : Int) + 1),
           employment_thousands := 150000, employment_millions := 150,
           period_code := monthCode ((i : Int) + 1) } : NormalizedRecord))) =
      .error .typeErr := by
  constructor
  · rfl
  · rfl

/-- Claim C5 (code evaluated at the failing input): on a sector with
two consecutive monthly rows — where the claim promises `mom_change`
defined for exactly one row — `calcualte_metrics` raises `TypeError`
and defines nothing. -/
theorem c5_diff_failing_input :
    calcualte_metrics
      [⟨"Leisure Hospitality", ⟨2024, 1, 1⟩, 2024, 1, "January", 16000, 16, "M01"⟩,
       ⟨"Leisure Hospitality", ⟨2024, 2, 1⟩, 2024, 2, "February", 16100, 16.1, "M02"⟩] =
      .error .typeErr := by
  rfl

/-- Claim C8 (code evaluated at the failing input): on a frame with one
record whose `employment_thousands` is `-5`, the checks preceding the
continuity loop collect exactly one issue, mentioning negative
employment — but `validate_data` then raises `AttributeError` at
`date_diffs.days` (line 234) instead of reporting `(false, issues)`;
even on inputs where it does return, line 245 returns only the bare
boolean `len(issues) == 0`, never an `(is_valid, issues)` pair. -/
theorem c8_validator_failing_input :
    (validate_data [⟨"Manufacturing", ⟨2023, 1, 1⟩, 2023, 1, "January", -5,
        pyRound2 ((-5) / 1000), "M01"⟩]).1 = .error .attrErr ∧
    validationIssuesPreContinuity [⟨"Manufacturing", ⟨2023, 1, 1⟩, 2023, 1, "January", -5,
        pyRound2 ((-5) / 1000), "M01"⟩] = ["Negative employment values found"] := by
  constructor
  · rfl
  · with_unfolding_all decide

/-- Claim C9: running the Validator leaves the input frame completely
unchanged, whether validation returns (empty frame) or terminates with
the `AttributeError` (non-empty frame): the frame component of the
result is the input in every branch, because every statement of
`validate_data` only reads the frame. -/
theorem c9_validator_preserves_input (df : List NormalizedRecord) :
    (validate_data df).2 = df := by
  unfold validate_data
  split <;> rfl

/-- Claim C10 counterexample: a call issued below the cap whose
`requests.post` raises does **not** increment the request counter (the
increment at line 68 sits after the `post` inside the `try`): starting
from a fresh session, the counter is 0 before and after the call even
though a request was issued, refuting "each issued call increments the
request counter by exactly one". -/
theorem c10_counterexample :
    BLSExtractor.init.request_count < BLSExtractor.init.max_requests ∧
    (fetch_employment_data BLSExtractor.init .exc).2.2 = true ∧
    (fetch_employment_data BLSExtractor.init .exc).2.1.request_count ≠
      BLSExtractor.init.request_count + 1 := by
  refine ⟨by decide, rfl, by decide⟩

/-- Each call below the cap keeps the counter at most the cap and
leaves the cap itself unchanged. -/
theorem fetch_state_bound (s : BLSExtractor) (net : HTTPOutcome)
    (h : s.request_count ≤ s.max_requests) :
    (fetch_employment_data s net).2.1.request_count ≤ s.max_requests ∧
    (fetch_employment_data s net).2.1.max_requests = s.max_requests := by
  unfold fetch_employment_data
  by_cases hge : s.request_count ≥ s.max_requests
  · rw [if_pos hge]
    exact ⟨h, rfl⟩
  · rw [if_neg hge]
    cases net with
    | exc => exact ⟨h, rfl⟩
    | response code body =>
      have hlt : s.request_count + 1 ≤ s.max_requests := by omega
      dsimp only
      split
      · split
        · exact ⟨hlt, rfl⟩
        · exact ⟨hlt, rfl⟩
      · exact ⟨hlt, rfl⟩

/-- Over any sequence of calls, a session that starts within its cap
stays within it. -/
theorem runFetches_bound (nets : List HTTPOutcome) : ∀ s : BLSExtractor,
    s.request_count ≤ s.max_requests →
    (runFetches s nets).request_count ≤ s.max_requests ∧
    (runFetches s nets).max_requests = s.max_requests := by
  induction nets with
  | nil => exact fun s h => ⟨h, rfl⟩
  | cons net rest ih =>
    intro s h
    have hs := fetch_state_bound s net h
    have hrec := ih (fetch_employment_data s net).2.1 (by rw [hs.2]; exact hs.1)
    rw [hs.2] at hrec
    unfold runFetches at hrec ⊢
    simpa [List.foldl_cons] using hrec

/-- Claim C10 (amended): a call that starts below the cap issues a
request; if its request completes with a response (any HTTP status) the
counter advances by exactly one, while a call whose request raises
leaves the counter unchanged and returns `None`. Once the counter has
reached the cap, every call returns `None` without issuing a request
and without changing the session. Consequently a session that starts
within the cap (as a fresh one does, at 0 of 25) never exceeds it over
any sequence of calls. -/
theorem c10_rate_limit (s : BLSExtractor) (net : HTTPOutcome) (nets : List HTTPOutcome) :
    (s.request_count < s.max_requests →
      (fetch_employment_data s net).2.2 = true ∧
      (∀ code body, net = .response code body →
        (fetch_employment_data s net).2.1.request_count = s.request_count + 1) ∧
      (net = .exc →
        (fetch_employment_data s net).1 = none ∧
        (fetch_employment_data s net).2.1 = s)) ∧
    (s.max_requests ≤ s.request_count →
      fetch_employment_data s net = (none, s, false)) ∧
    (s.request_count ≤ s.max_requests →
      (runFetches s nets).request_count ≤ s.max_requests) := by
  refine ⟨?_, ?_, fun h => (runFetches_bound nets s h).1⟩
  · intro h
    unfold fetch_employment_data
    rw [if_neg (not_le.mpr h)]
    cases net with
    | exc =>
      refine ⟨rfl, ?_, ?_⟩
      · intro code body hx
        exact HTTPOutcome.noConfusion hx
      · intro _
        exact ⟨rfl, rfl⟩
    | response code body =>
      refine ⟨?_, ?_, fun hx => HTTPOutcome.noConfusion hx⟩
      · dsimp only
        split
        · split <;> rfl
        · rfl
      · intro c b hx
        dsimp only
        split
        · split <;> rfl
        · rfl
  · intro h
    unfold fetch_employment_data
    rw [if_pos h]

/-- Witness for the amended C10 at concrete sessions. -/
theorem c10_rate_limit_witness :
    (fetch_employment_data ⟨24, 25⟩ (.response 200 ⟨"REQUEST_SUCCEEDED", []⟩)).2.1.request_count
      = 24 + 1 ∧
    fetch_employment_data ⟨25, 25⟩ .exc = (none, ⟨25, 25⟩, false) ∧
    (runFetches ⟨0, 25⟩ [.exc, .response 200 ⟨"REQUEST_SUCCEEDED", []⟩]).request_count ≤ 25 :=
  ⟨((c10_rate_limit ⟨24, 25⟩ (.response 200 ⟨"REQUEST_SUCCEEDED", []⟩) []).1
      (by decide)).2.1 200 ⟨"REQUEST_SUCCEEDED", []⟩ rfl,
   (c10_rate_limit ⟨25, 25⟩ .exc []).2.1 (by decide),
   (c10_rate_limit ⟨0, 25⟩ .exc [.exc, .response 200 ⟨"REQUEST_SUCCEEDED", []⟩]).2.2
      (by decide)⟩
